/-
  Spec2Proof.lean — verification of negentropic-core against its specification.

  Shallow embedding conventions used throughout this file:
  * C byte buffers are `List Nat` with each byte < 256; multi-byte integers
    are little-endian, matching the reference platforms.
  * C `uint64_t` / `uint32_t` arithmetic is `Nat` with explicit `% 2^64` /
    `% 2^32` where the C value can wrap.
  * C `int32_t` (the Q16.16 `fixed_t`) is `Int`; saturating helpers clamp to
    the int32 range, and the implementation-defined narrowing cast
    `(fixed_t)(int64_value)` is modelled as two's-complement wrapping
    (`i32wrap`), which is what every reference target does; `>>` on signed
    values is the arithmetic shift, i.e. flooring division by a power of two
    (`Int.fdiv`), while C integer division truncates toward zero (`Int.tdiv`).
  * `float`/`double` state variables of the hydrology and integrator code are
    modelled as `ℚ`; decimal float literals of the source are taken at their
    decimal value.  The properties settled over these embeddings concern
    control flow, comparisons and clamping, which do not depend on the
    rounding of the float representation at the inputs used.
  * `libc` transcendentals (`expf`), which the repository does not define,
    are taken as function parameters of the embedding.
-/
import Mathlib

namespace NegCore

/- ====================================================================
   Canonical state snapshot (src/core/state.c) — definitions
   ==================================================================== -/

/-- The 8 bytes of the `NEG_STATE_MAGIC` string `"NEGSTATE"`. -/
def negStateMagic : List Nat := [0x4E, 0x45, 0x47, 0x53, 0x54, 0x41, 0x54, 0x45]

/-- `NEG_STATE_VERSION` from `include/state_versioning.h`:
    `(1 << 16) | (0 << 8) | 0`. -/
def NEG_STATE_VERSION : Nat := (1 <<< 16) ||| (0 <<< 8) ||| 0

/-- Modelled from the spec: `sizeof(se3_pose_t)`.  The definition of
    `se3_pose_t` lives in `embedded/se3_edge.h`, which is not among the
    sources; the spec's §4.12 layout — header, then 192-byte pose records —
    fixes the pose record at 192 bytes. -/
def poseSize : Nat := 192

/-- Little-endian encoding of a `uint32_t`; the value is reduced mod 2^32,
    exactly as storing into a `uint32_t` does. -/
def u32le (n : Nat) : List Nat :=
  [n % 256, n / 256 % 256, n / 2 ^ 16 % 256, n / 2 ^ 24 % 256]

/-- Little-endian encoding of a `uint64_t`. -/
def u64le (n : Nat) : List Nat :=
  [n % 256, n / 2 ^ 8 % 256, n / 2 ^ 16 % 256, n / 2 ^ 24 % 256,
   n / 2 ^ 32 % 256, n / 2 ^ 40 % 256, n / 2 ^ 48 % 256, n / 2 ^ 56 % 256]

/-- `memcpy(&v, ptr, 4)` of a little-endian `uint32_t`. -/
def readU32 : List Nat → Nat
  | b0 :: b1 :: b2 :: b3 :: _ => b0 + 2 ^ 8 * b1 + 2 ^ 16 * b2 + 2 ^ 24 * b3
  | _ => 0

/-- `memcpy(&v, ptr, 8)` of a little-endian `uint64_t`. -/
def readU64 : List Nat → Nat
  | b0 :: b1 :: b2 :: b3 :: b4 :: b5 :: b6 :: b7 :: _ =>
      b0 + 2 ^ 8 * b1 + 2 ^ 16 * b2 + 2 ^ 24 * b3 +
      2 ^ 32 * b4 + 2 ^ 40 * b5 + 2 ^ 48 * b6 + 2 ^ 56 * b7
  | _ => 0

/-- The serialization-relevant part of `SimulationInternal`
    (src/core/state.c): the configured entity/scalar-field counts, the
    timestamp in microseconds, and the contents of the inline pose and
    scalar-field arrays kept as raw bytes — `memcpy` moves them opaquely.
    A state produced by `state_create` satisfies `Wf` below. -/
structure SimState where
  num_entities : Nat
  num_scalar_fields : Nat
  timestamp : Nat
  poses : List Nat
  scalar_fields : List Nat
  deriving DecidableEq

/-- Well-formedness of a `SimState` as laid out by `state_create`: array
    byte lengths match the configured counts, the counts are `uint32_t`
    values, the timestamp is a `uint64_t` value, and the arrays hold bytes. -/
def SimState.Wf (s : SimState) : Prop :=
  s.poses.length = s.num_entities * poseSize ∧
  s.scalar_fields.length = s.num_scalar_fields * 4 ∧
  s.num_entities < 2 ^ 32 ∧
  s.num_scalar_fields < 2 ^ 32 ∧
  s.timestamp < 2 ^ 64 ∧
  (∀ b ∈ s.poses, b < 256) ∧
  (∀ b ∈ s.scalar_fields, b < 256)

instance (s : SimState) : Decidable s.Wf := by
  unfold SimState.Wf; infer_instance

/-- `state_get_binary_size`: magic + version + timestamp + hash + data_size
    + (entity count + poses + scalar count + scalars). -/
def stateGetBinarySize (s : SimState) : Nat :=
  8 + 4 + 8 + 8 + 4 + (4 + s.num_entities * poseSize + 4 + s.num_scalar_fields * 4)

/-- The FNV-1a placeholder `xxh3_hash` (src/core/state.c lines 24-33):
    start from 0xcbf29ce484222325 and, per byte, xor then multiply by
    0x100000001b3 in `uint64_t` arithmetic. -/
def xxh3_hash (bytes : List Nat) : Nat :=
  bytes.foldl (fun h b => ((h ^^^ b) * 0x100000001b3) % 2 ^ 64) 0xcbf29ce484222325

/-- `state_to_binary(sim, buffer, max_len)` (src/core/state.c lines 221-285).

    `buffer` is the caller's buffer before the call, i.e. its prior
    contents; the result is the emitted byte string of length
    `stateGetBinarySize`, or `[]` when `max_len < required` (the C function
    returns 0 and writes nothing).

    Faithful to the source: the 8-byte hash field at offset 20 is only
    reserved (`ptr += sizeof(uint64_t)`) — no placeholder value is stored —
    so when `xxh3_hash` is later taken over the whole written span, the
    hash field still holds bytes 20..27 of the caller's buffer
    (`staleHash` below). -/
def stateToBinary (s : SimState) (buffer : List Nat) : List Nat :=
  if buffer.length < stateGetBinarySize s then []
  else
    let ts_ms : Nat := (s.timestamp / 1000) % 2 ^ 64
    let staleHash : List Nat := (buffer.drop 20).take 8
    let body : List Nat :=
      u32le s.num_entities ++ s.poses ++ u32le s.num_scalar_fields ++ s.scalar_fields
    let dataSize : Nat := body.length
    let preHash : List Nat :=
      negStateMagic ++ u32le NEG_STATE_VERSION ++ u64le ts_ms ++
        staleHash ++ u32le dataSize ++ body
    let hash : Nat := xxh3_hash preHash
    negStateMagic ++ u32le NEG_STATE_VERSION ++ u64le ts_ms ++
      u64le hash ++ u32le dataSize ++ body

/-- `state_reset_from_binary(sim, buffer, len)` (src/core/state.c lines
    287-362), returning the C result together with the state after the
    call.  The sequencing mirrors the source exactly: the timestamp is
    stored as soon as it is parsed (line 314), before the
    data-size/entity/scalar validations, and the pose array is copied
    (line 343) before the scalar-field count is validated.  The stored
    hash is read but never verified. -/
def stateResetFromBinary (s : SimState) (buf : List Nat) : Bool × SimState :=
  if buf.length = 0 then (false, s)
  else if buf.length < 8 then (false, s)
  else if buf.take 8 ≠ negStateMagic then (false, s)
  else
    let r1 := buf.drop 8
    if r1.length < 4 then (false, s)
    else if readU32 r1 ≠ NEG_STATE_VERSION then (false, s)
    else
      let r2 := r1.drop 4
      if r2.length < 8 then (false, s)
      else
        let ts_ms := readU64 r2
        let s1 : SimState := { s with timestamp := ts_ms * 1000 % 2 ^ 64 }
        let r3 := r2.drop 8
        if r3.length < 8 then (false, s1)
        else
          let r4 := r3.drop 8
          if r4.length < 4 then (false, s1)
          else
            let dataSize := readU32 r4
            let r5 := r4.drop 4
            if dataSize > r5.length then (false, s1)
            else if r5.length < 4 then (false, s1)
            else
              let nE := readU32 r5
              let r6 := r5.drop 4
              if nE ≠ s.num_entities then (false, s1)
              else
                let posesSize := nE * poseSize
                if posesSize > r6.length then (false, s1)
                else
                  let s2 : SimState := { s1 with poses := r6.take posesSize }
                  let r7 := r6.drop posesSize
                  if r7.length < 4 then (false, s2)
                  else
                    let nS := readU32 r7
                    let r8 := r7.drop 4
                    if nS ≠ s.num_scalar_fields then (false, s2)
                    else
                      let scalarSize := nS * 4
                      if scalarSize > r8.length then (false, s2)
                      else
                        (true, { s2 with scalar_fields := r8.take scalarSize })

/- ====================================================================
   PRNG seeding (src/core/rng.c and src/rng.c) — definitions
   ==================================================================== -/

/-- `NEG_RNG_DEFAULT_SEED` from src/core/rng.c. -/
def NEG_RNG_DEFAULT_SEED : Nat := 0xDEADBEEFCAFEBABE

/-- `neg_rng_seed` (src/core/rng.c lines 23-28): stores the seed itself,
    replacing a zero seed by the default constant; no diffusion step is
    applied. -/
def neg_rng_seed (seed : Nat) : Nat :=
  if seed = 0 then NEG_RNG_DEFAULT_SEED else seed

/-- The splitmix64 diffusion step written inline in `rng_init`
    (src/rng.c lines 25-28), in `uint64_t` arithmetic. -/
def splitmix64 (seed : Nat) : Nat :=
  let z := (seed + 0x9e3779b97f4a7c15) % 2 ^ 64
  let z := ((z ^^^ (z >>> 30)) * 0xbf58476d1ce4e5b9) % 2 ^ 64
  let z := ((z ^^^ (z >>> 27)) * 0x94d049bb133111eb) % 2 ^ 64
  z ^^^ (z >>> 31)

/-- `rng_init` (src/rng.c lines 18-30): a zero seed is replaced by the
    64-bit golden-ratio constant, one splitmix64 step diffuses the seed,
    and a zero diffusion result falls back to 0x0123456789abcdef. -/
def rng_init (seed : Nat) : Nat :=
  let seed' := if seed = 0 then 0x9E3779B97F4A7C15 else seed
  let z := splitmix64 seed'
  if z ≠ 0 then z else 0x0123456789abcdef

/- ====================================================================
   Barrier potentials (include/barriers.h) — definitions
   ==================================================================== -/

def INT32_MAX : Int := 2147483647
def INT32_MIN : Int := -2147483648

/-- Two's-complement wrap of an `int64` value into `int32`, the behaviour
    of `(fixed_t)` narrowing casts on all reference targets. -/
def i32wrap (z : Int) : Int := (z + 2 ^ 31) % 2 ^ 32 - 2 ^ 31

/-- `BARRIER_STRENGTH` (8.0 in Q16.16). -/
def BARRIER_STRENGTH : Int := 0x00080000

/-- `BARRIER_EPS` (64 subunits, about 0.001 in Q16.16). -/
def BARRIER_EPS : Int := 0x00000040

/-- `FRACUNIT` (1.0 in Q16.16). -/
def FRACUNIT : Int := 65536

/-- `barrier_fixed_mul`: `(int64 product) >> 16` (arithmetic shift, i.e.
    flooring division), narrowed to int32. -/
def barrier_fixed_mul (a b : Int) : Int := i32wrap (Int.fdiv (a * b) (2 ^ 16))

/-- `barrier_fixed_div`: zero-guarded `((int64)a << 16) / b` with C's
    truncating division, narrowed to int32. -/
def barrier_fixed_div (a b : Int) : Int :=
  if b = 0 then 0 else i32wrap (Int.tdiv (a * 2 ^ 16) b)

/-- `barrier_fixed_sub` with saturation to the int32 range. -/
def barrier_fixed_sub (a b : Int) : Int :=
  if a - b > INT32_MAX then INT32_MAX
  else if a - b < INT32_MIN then INT32_MIN
  else a - b

/-- `barrier_fixed_add` with saturation to the int32 range. -/
def barrier_fixed_add (a b : Int) : Int :=
  if a + b > INT32_MAX then INT32_MAX
  else if a + b < INT32_MIN then INT32_MIN
  else a + b

/-- `fixed_barrier_potential` (include/barriers.h lines 151-166). -/
def fixed_barrier_potential (x x_min : Int) : Int :=
  let dx := barrier_fixed_add (barrier_fixed_sub x x_min) BARRIER_EPS
  if dx ≤ 0 then 0x7FFFFFFF
  else barrier_fixed_div BARRIER_STRENGTH dx

/-- `fixed_barrier_gradient` (include/barriers.h lines 181-203). -/
def fixed_barrier_gradient (x x_min : Int) : Int :=
  let dx := barrier_fixed_add (barrier_fixed_sub x x_min) BARRIER_EPS
  if dx ≤ 0 then -0x7FFFFFFF
  else
    let inv := barrier_fixed_div FRACUNIT dx
    let inv_sq := barrier_fixed_mul inv inv
    let grad := barrier_fixed_mul BARRIER_STRENGTH inv_sq;
    -grad

/- ====================================================================
   Fixed-point reciprocal LUT (src/core/math/fixed_math.c) — definitions
   ==================================================================== -/

def RECIPROCAL_LUT_SIZE : Nat := 256
def RECIPROCAL_MIN_VAL : Int := 65536
def RECIPROCAL_MAX_VAL : Int := 256 * 65536

/-- The reciprocal LUT built by `generate_reciprocal_lut`:
    `FLOAT_TO_FIXED((float)(1.0 / (1.0 + i)))`, i.e. round-to-nearest of
    `65536 / (i + 1)` followed by truncation — `floor(65536/(i+1) + 1/2)`,
    computed here as `(131072 + i + 1) / (2 (i + 1))` in `Nat` division.

    This models the FP64/float generation exactly: the float rounding of
    `1/(1+i)` and of the `+ 0.5f` step perturbs the value by less than
    `0.012/(i+1)` subunits, while the exact value `65536/(i+1) + 1/2` is
    never closer than `1/(2(i+1))` to an integer (it lands on one only if
    `65536 mod (i+1) = (i+1)/2`, impossible since 65536 is a power of two),
    so the truncated integer is the same. -/
def reciprocal_lut : List Int :=
  (List.range RECIPROCAL_LUT_SIZE).map
    (fun i => (((131072 + i + 1) / (2 * (i + 1)) : Nat) : Int))

/-- `FIXED_MUL`: `((int64)a * b) >> 16` (arithmetic shift), narrowed. -/
def FIXED_MUL (a b : Int) : Int := i32wrap (Int.fdiv (a * b) (2 ^ 16))

/-- `FIXED_DIV`: `(((int64)a) << 16) / b` (truncating division), narrowed. -/
def FIXED_DIV (a b : Int) : Int := i32wrap (Int.tdiv (a * 2 ^ 16) b)

/-- `INT_TO_FIXED`: `x << 16` on int32, wrapping on overflow as the
    reference targets do. -/
def INT_TO_FIXED (x : Int) : Int := i32wrap (x * 2 ^ 16)

/-- `fixed_reciprocal` (src/core/math/fixed_math.c lines 121-153).
    `index_fixed = x_shifted >> 16` and `frac = x_shifted & 0xFFFF` are
    computed on the non-negative `x_shifted`, so they are `Int.fdiv` and
    `Int.emod` by 2^16. -/
def fixed_reciprocal (x0 : Int) : Int :=
  if x0 = 0 then 0
  else
    let x := if x0 < 0 then i32wrap (-x0) else x0
    if x < RECIPROCAL_MIN_VAL then FIXED_DIV FRACUNIT x
    else if x ≥ RECIPROCAL_MAX_VAL then FIXED_DIV FRACUNIT x
    else
      let x_shifted := x - FRACUNIT
      let index_fixed := Int.fdiv x_shifted (2 ^ 16)
      let frac := Int.emod x_shifted (2 ^ 16)
      let index_fixed := if index_fixed < 0 then 0 else index_fixed
      let index_fixed := if index_fixed ≥ (RECIPROCAL_LUT_SIZE : Int) - 1
                         then (RECIPROCAL_LUT_SIZE : Int) - 2 else index_fixed
      let v0 := reciprocal_lut.getD index_fixed.toNat 0
      let v1 := reciprocal_lut.getD (index_fixed.toNat + 1) 0
      let delta := v1 - v0
      let interp := FIXED_MUL (Int.fdiv (INT_TO_FIXED frac) (2 ^ 16)) delta
      v0 + interp

end NegCore

namespace NegCore

/- ====================================================================
   LoD-gated integrator dispatch (src/core/integrators) — definitions
   ==================================================================== -/

/-- `integrator_e` (src/core/integrators/integrators.h). -/
inductive IntegratorE where
  | rk4
  | symplectic_prk
  | rkmk4
  | clebsch_collective
  | explicit_euler
  deriving DecidableEq

/-- `GridCell` (src/core/integrators/integrators.h lines 115-137); float
    state fields are modelled as rationals. -/
structure GridCell where
  theta : ℚ
  surface_water : ℚ
  SOM : ℚ
  temperature : ℚ
  vegetation : ℚ
  momentum_u : ℚ
  momentum_v : ℚ
  vorticity : ℚ
  flags : Nat
  lod_level : Int
  deriving DecidableEq

def CELL_FLAG_ACTIVE : Nat := 1 <<< 0
def CELL_FLAG_BOUNDARY : Nat := 1 <<< 1
def CELL_FLAG_REQUIRES_SE3 : Nat := 1 <<< 2
def CELL_FLAG_REQUIRES_LP : Nat := 1 <<< 3
def LOD_FINE_THRESHOLD : Int := 2

/-- `select_integrator_for_lod` (src/core/integrators/lod_dispatch.c
    lines 47-66); the null-pointer guard of the C code is outside the
    embedding. -/
def select_integrator_for_lod (cell : GridCell) : IntegratorE :=
  if cell.lod_level < LOD_FINE_THRESHOLD then .rk4
  else if cell.flags &&& CELL_FLAG_REQUIRES_SE3 ≠ 0 then .rkmk4
  else if cell.flags &&& CELL_FLAG_REQUIRES_LP ≠ 0 then .clebsch_collective
  else .rkmk4

/-- The `error_sq` accumulator of `estimate_integration_error`
    (src/core/integrators/integrators.c lines 68-97). -/
def estimate_error_sq (cell prev_state : GridCell) : ℚ :=
  let d_theta := cell.theta - prev_state.theta
  let d_sw := cell.surface_water - prev_state.surface_water
  let d_SOM := cell.SOM - prev_state.SOM
  let d_T := cell.temperature - prev_state.temperature
  let d_veg := cell.vegetation - prev_state.vegetation
  let d_mu := cell.momentum_u - prev_state.momentum_u
  let d_mv := cell.momentum_v - prev_state.momentum_v
  d_theta * d_theta + d_sw * d_sw + d_SOM * d_SOM + d_T * d_T +
    d_veg * d_veg + d_mu * d_mu + d_mv * d_mv

def ERROR_RK4_THRESHOLD : ℚ := 1 / 10 ^ 4
def ERROR_RKMK4_THRESHOLD : ℚ := 1 / 10 ^ 6

/-- Boolean reflection of
    `should_escalate(estimate_integration_error(cell, prev, dt), method)`
    (lod_dispatch.c lines 75-90 with integrators.c lines 68-97):
    the error is `sqrt(error_sq)/dt`, and for `dt > 0` and a positive
    threshold `thr`, `sqrt(e)/dt > thr ↔ e > thr² dt²`, which keeps the
    comparison inside ℚ; `dt ≤ 0` makes the estimate INFINITY, which
    exceeds the RK4/RKMK4 thresholds.  Clebsch and the remaining methods
    never escalate, whatever the error. -/
def should_escalate_on (method : IntegratorE) (cell prev_state : GridCell)
    (dt : ℚ) : Bool :=
  match method with
  | .rk4 =>
      if dt ≤ 0 then true
      else decide (estimate_error_sq cell prev_state > ERROR_RK4_THRESHOLD ^ 2 * dt ^ 2)
  | .rkmk4 =>
      if dt ≤ 0 then true
      else decide (estimate_error_sq cell prev_state > ERROR_RKMK4_THRESHOLD ^ 2 * dt ^ 2)
  | .clebsch_collective => false
  | _ => false

/-- `escalate_integrator` (lod_dispatch.c lines 100-115). -/
def escalate_integrator (current : IntegratorE) : IntegratorE :=
  match current with
  | .rk4 => .rkmk4
  | .rkmk4 => .clebsch_collective
  | .clebsch_collective => .clebsch_collective
  | _ => current

/-- `lod_gated_step_cell` (lod_dispatch.c lines 137-177), parameterized by
    the dispatcher `integrator_step_cell` (with its `cfg`/`ws` arguments
    fixed), which returns the C result code together with the cell it
    leaves behind.  `dt` is `cfg->dt`.  Faithful to the source: the
    pre-step state is saved, a failed first attempt returns its code, an
    escalation restores the saved state and retries exactly once with the
    next method, and the torsion block is a no-op. -/
def lod_gated_step_cell (step : IntegratorE → GridCell → Int × GridCell)
    (dt : ℚ) (cell : GridCell) : Int × GridCell :=
  let prev_state := cell
  let method := select_integrator_for_lod cell
  let first := step method cell
  if first.1 ≠ 0 then (first.1, first.2)
  else if should_escalate_on method first.2 prev_state dt then
    let retry := step (escalate_integrator method) prev_state
    if retry.1 ≠ 0 then (retry.1, retry.2)
    else (0, retry.2)
  else (0, first.2)

/- ====================================================================
   Richards-Lite hydrology (src/solvers/hydrology_richards_lite.c)
   — definitions
   ==================================================================== -/

/-- The fields of `Cell` (hydrology_richards_lite.h lines 106-215) read or
    written by the embedded functions; `K_tensor[9]` is mentioned only in
    comments of the embedded code and is omitted. -/
structure HydCell where
  theta : ℚ
  psi : ℚ
  h_surface : ℚ
  zeta : ℚ
  K_s : ℚ
  alpha_vG : ℚ
  n_vG : ℚ
  theta_s : ℚ
  theta_r : ℚ
  M_K_zz : ℚ
  M_K_xx : ℚ
  kappa_evap : ℚ
  Delta_zeta : ℚ
  zeta_c : ℚ
  a_c : ℚ
  vegetation_cover : ℚ
  SOM_percent : ℚ
  porosity_eff : ℚ
  z : ℚ
  dz : ℚ
  dx : ℚ
  deriving DecidableEq

/-- The all-zero cell, used as the out-of-bounds default of array reads. -/
def hydDefault : HydCell :=
  { theta := 0, psi := 0, h_surface := 0, zeta := 0, K_s := 0, alpha_vG := 0,
    n_vG := 0, theta_s := 0, theta_r := 0, M_K_zz := 0, M_K_xx := 0,
    kappa_evap := 0, Delta_zeta := 0, zeta_c := 0, a_c := 0,
    vegetation_cover := 0, SOM_percent := 0, porosity_eff := 0,
    z := 0, dz := 0, dx := 0 }

def LUT_SIZE : Nat := 256

/-- `VanGenuchtenLUT` (hydrology_richards_lite_internal.h lines 55-75).
    The tables are parameters of the embedding: the default tables are
    generated with `powf`, and the sources also invite users to modify
    `g_vG_lut_default` after init. -/
structure VanGenuchtenLUT where
  alpha : ℚ
  n : ℚ
  m : ℚ
  theta_s : ℚ
  theta_r : ℚ
  K_s : ℚ
  theta_of_psi : List ℚ
  K_of_theta : List ℚ
  C_of_psi : List ℚ
  psi_min : ℚ
  psi_max : ℚ
  theta_min : ℚ
  theta_max : ℚ
  deriving DecidableEq

/-- `RichardsLiteParams` (hydrology_richards_lite.h lines 223-272).  The
    `use_free_drainage` field is read by `richards_lite_step` and set by
    the tests but missing from the header copy among the sources; it is
    included here as the `int`-as-Bool flag those uses imply. -/
structure RichardsLiteParams where
  K_r : ℚ
  phi_r : ℚ
  l_r : ℚ
  b_T : ℚ
  E_bare_ref : ℚ
  dt_max : ℚ
  CFL_factor : ℚ
  picard_tol : ℚ
  picard_max_iter : Nat
  use_free_drainage : Bool
  deriving DecidableEq

/-- Floor of a rational, kernel-computable. -/
def ratFloor (q : ℚ) : Int := Int.fdiv q.num q.den

/-- `fabsf`. -/
def ratAbs (q : ℚ) : ℚ := if q < 0 then -q else q

/-- C `(int)` cast of a float value: truncation toward zero. -/
def cIntOfRat (q : ℚ) : Int := if q < 0 then -(ratFloor (-q)) else ratFloor q

/-- `clamp` (hydrology_richards_lite_internal.h lines 379-383). -/
def clamp (x mn mx : ℚ) : ℚ :=
  if x < mn then mn else if x > mx then mx else x

/-- `vG_K_lookup` (hydrology_richards_lite_internal.h lines 239-259).
    A negative index — possible only when `theta_min` and `theta_r` are
    inconsistent, where the C code reads out of bounds — yields index 0
    through `Int.toNat` and the `getD` default. -/
def vG_K_lookup (theta : ℚ) (lut : VanGenuchtenLUT) : ℚ :=
  if theta ≥ lut.theta_s then lut.K_s
  else if theta ≤ lut.theta_r then lut.K_s * (1 / 10 ^ 12)
  else
    let t := (theta - lut.theta_min) / (lut.theta_max - lut.theta_min)
    let idx_f := t * ((LUT_SIZE : ℚ) - 1)
    let idx := cIntOfRat idx_f
    let frac := idx_f - (idx : ℚ)
    if idx ≥ (LUT_SIZE : Int) - 1 then lut.K_of_theta.getD (LUT_SIZE - 1) 0
    else
      lut.K_of_theta.getD idx.toNat 0 * (1 - frac) +
        lut.K_of_theta.getD (idx.toNat + 1) 0 * frac

/-- `thomas_algorithm` (hydrology_richards_lite_internal.h lines 285-315).
    In ℚ the unguarded division by `b[0]` gives 0 where C would produce
    an infinity; the solver's callers only consume the solution through a
    clamp, so the distinction does not reach any settled property. -/
def thomas_algorithm (a b c d : Array ℚ) (n : Nat) : Array ℚ := Id.run do
  let mut c_prime : Array ℚ := mkArray n 0
  let mut d_prime : Array ℚ := mkArray n 0
  c_prime := c_prime.setD 0 (c.getD 0 0 / b.getD 0 0)
  d_prime := d_prime.setD 0 (d.getD 0 0 / b.getD 0 0)
  for i in [1:n] do
    let denom0 := b.getD i 0 - a.getD i 0 * c_prime.getD (i - 1) 0
    let denom := if ratAbs denom0 < 1 / 10 ^ 12 then 1 / 10 ^ 12 else denom0
    c_prime := c_prime.setD i (c.getD i 0 / denom)
    d_prime := d_prime.setD i ((d.getD i 0 - a.getD i 0 * d_prime.getD (i - 1) 0) / denom)
  let mut x : Array ℚ := mkArray n 0
  x := x.setD (n - 1) (d_prime.getD (n - 1) 0)
  for i' in [1:n] do
    let i := n - 1 - i'
    x := x.setD i (d_prime.getD i 0 - c_prime.getD i 0 * x.getD (i + 1) 0)
  return x

/-- One row of the tridiagonal system built by `solve_vertical_implicit`
    (hydrology_richards_lite.c lines 236-295), as `(a, b, c, d)`.  The C
    code tests `k == 0` before `k == nz-1`, so for a one-layer column the
    rainfall row wins. -/
def vertCoeffs (column : Array HydCell) (nz : Nat) (dt rainfall : ℚ)
    (lut : VanGenuchtenLUT) (fd : Bool) (k : Nat) : ℚ × ℚ × ℚ × ℚ :=
  let cell := column.getD k hydDefault
  let dz := cell.dz
  let theta_k := cell.theta
  let K_k := vG_K_lookup theta_k lut
  let K_eff_k := K_k * cell.M_K_zz
  let coeff := dt / (dz * dz)
  if k = 0 then
    let c := -(coeff * K_eff_k)
    (0, 1 - c, c, theta_k + dt * rainfall / dz)
  else if k = nz - 1 then
    let a := -(coeff * K_eff_k)
    if fd then (a, 1 - a, 0, theta_k + dt * K_eff_k / dz)
    else (a, 1 - a, 0, theta_k)
  else
    let cm := column.getD (k - 1) hydDefault
    let cp := column.getD (k + 1) hydDefault
    let K_k_minus := vG_K_lookup cm.theta lut * cm.M_K_zz
    let K_k_plus := vG_K_lookup cp.theta lut * cp.M_K_zz
    let K_minus_half := 2 * K_eff_k * K_k_minus / (K_eff_k + K_k_minus + 1 / 10 ^ 12)
    let K_plus_half := 2 * K_eff_k * K_k_plus / (K_eff_k + K_k_plus + 1 / 10 ^ 12)
    let a := -(coeff * K_minus_half)
    let c := -(coeff * K_plus_half)
    (a, 1 - a - c, c, theta_k)

/-- One Picard iteration of `solve_vertical_implicit` (lines 234-317 of
    hydrology_richards_lite.c): build the system from the current column,
    solve, measure the largest θ change against the pre-update column, and
    write back each θ clamped to `[theta_r, porosity_eff]`.  Returns the
    updated column together with `max_change`. -/
def picardIter (column : Array HydCell) (nz : Nat) (dt rainfall : ℚ)
    (lut : VanGenuchtenLUT) (fd : Bool) : Array HydCell × ℚ :=
  let a := Array.ofFn (n := nz) fun k => (vertCoeffs column nz dt rainfall lut fd k).1
  let b := Array.ofFn (n := nz) fun k => (vertCoeffs column nz dt rainfall lut fd k).2.1
  let c := Array.ofFn (n := nz) fun k => (vertCoeffs column nz dt rainfall lut fd k).2.2.1
  let d := Array.ofFn (n := nz) fun k => (vertCoeffs column nz dt rainfall lut fd k).2.2.2
  let theta_new := thomas_algorithm a b c d nz
  let max_change := (List.range nz).foldl
    (fun m k =>
      let change := ratAbs (theta_new.getD k 0 - (column.getD k hydDefault).theta)
      if change > m then change else m) 0
  let column' := Array.ofFn (n := nz) fun k =>
    let cell := column.getD k hydDefault
    { cell with theta := clamp (theta_new.getD k 0) cell.theta_r cell.porosity_eff }
  (column', max_change)

/-- The Picard loop of `solve_vertical_implicit`: up to `fuel` iterations,
    stopping after an iteration whose `max_change` is below `tol` (the C
    loop updates θ first and then breaks on convergence). -/
def picardLoop : Nat → ℚ → Array HydCell → Nat → ℚ → ℚ → VanGenuchtenLUT → Bool →
    Array HydCell
  | 0, _, column, _, _, _, _, _ => column
  | fuel + 1, tol, column, nz, dt, rainfall, lut, fd =>
      let r := picardIter column nz dt rainfall lut fd
      if r.2 < tol then r.1
      else picardLoop fuel tol r.1 nz dt rainfall lut fd

/-- `solve_vertical_implicit` (hydrology_richards_lite.c lines 215-324):
    the iteration constants are the local `max_iter = 20` and
    `tol = 1e-4f` hard-coded at lines 231-232. -/
def solve_vertical_implicit (column : Array HydCell) (nz : Nat) (dt rainfall : ℚ)
    (lut : VanGenuchtenLUT) (use_free_drainage : Bool) : Array HydCell :=
  picardLoop 20 (1 / 10 ^ 4) column nz dt rainfall lut use_free_drainage

/-- The vertical pass as claim C3 words it, following the spec: the same
    Picard loop, but driven by `params->picard_tol` and
    `params->picard_max_iter`.  This is the refinement counterpart of
    `solve_vertical_implicit`, for comparison with the source. -/
def solve_vertical_implicit_spec (params : RichardsLiteParams)
    (column : Array HydCell) (nz : Nat) (dt rainfall : ℚ)
    (lut : VanGenuchtenLUT) (use_free_drainage : Bool) : Array HydCell :=
  picardLoop params.picard_max_iter params.picard_tol column nz dt rainfall lut
    use_free_drainage

/-- `connectivity_function` (hydrology_richards_lite_internal.h lines
    333-343), with `expf` a parameter of the embedding. -/
def connectivity_function (expf : ℚ → ℚ) (zeta zeta_c a_c : ℚ) : ℚ :=
  let e0 := -a_c * (zeta - zeta_c)
  let e1 := if e0 > 20 then 20 else e0
  let e2 := if e1 < -20 then -20 else e1
  1 / (1 + expf e2)

/-- `cfl_timestep` (hydrology_richards_lite_internal.h lines 395-401). -/
def cfl_timestep (K_eff dx safety_factor : ℚ) : ℚ :=
  safety_factor * (dx * dx) / (2 * K_eff + 1 / 10 ^ 12)

/-- `solve_horizontal_explicit` (hydrology_richards_lite.c lines 348-409)
    on the flat surface-cell array, `idx = j * nx + i`.  In ℚ a
    non-positive substep count makes `dt_sub` a division by zero (= 0)
    where C divides by the int; the loop then runs zero times either way. -/
def solve_horizontal_explicit (expf : ℚ → ℚ) (cells : Array HydCell)
    (params : RichardsLiteParams) (nx ny : Nat) (dt : ℚ) : Array HydCell := Id.run do
  let K_r := params.K_r
  let dx := (cells.getD 0 hydDefault).dx
  let dt_cfl := cfl_timestep K_r dx params.CFL_factor
  let n_substeps := cIntOfRat (dt / dt_cfl) + 1
  let dt_sub := dt / (n_substeps : ℚ)
  let mut cur := cells
  for _ in [0:n_substeps.toNat] do
    let mut h_new : Array ℚ := mkArray (nx * ny) 0
    for j in [0:ny] do
      for i in [0:nx] do
        let idx := j * nx + i
        let cell := cur.getD idx hydDefault
        let C_zeta := connectivity_function expf cell.zeta cell.zeta_c cell.a_c
        if C_zeta < 1 / 10 then
          h_new := h_new.setD idx cell.h_surface
        else
          let eta_s := cell.h_surface + cell.z
          let eta_w := if 0 < i then
              (cur.getD (idx - 1) hydDefault).h_surface + (cur.getD (idx - 1) hydDefault).z
            else eta_s
          let eta_e := if i < nx - 1 then
              (cur.getD (idx + 1) hydDefault).h_surface + (cur.getD (idx + 1) hydDefault).z
            else eta_s
          let eta_s_n := if 0 < j then
              (cur.getD (idx - nx) hydDefault).h_surface + (cur.getD (idx - nx) hydDefault).z
            else eta_s
          let eta_n := if j < ny - 1 then
              (cur.getD (idx + nx) hydDefault).h_surface + (cur.getD (idx + nx) hydDefault).z
            else eta_s
          let laplacian := (eta_w + eta_e + eta_s_n + eta_n - 4 * eta_s) / (dx * dx)
          let hv := cell.h_surface + dt_sub * K_r * C_zeta * laplacian
          h_new := h_new.setD idx (if hv < 0 then 0 else hv)
    let mut next := cur
    for j in [0:ny] do
      for i in [0:nx] do
        let idx := j * nx + i
        next := next.setD idx
          { next.getD idx hydDefault with h_surface := h_new.getD idx 0 }
    cur := next
  return cur

/-- In-place update of the surface cell (index 0) of a column, the shape of
    every per-column surface write in `richards_lite_step`. -/
def updAt0 (col : Array HydCell) (f : HydCell → HydCell) : Array HydCell :=
  col.setD 0 (f (col.getD 0 hydDefault))

/-- Step 1 of `richards_lite_step` (lines 438-447):
    `zeta = min(h_surface, zeta_c + Delta_zeta)`. -/
def step1_depression_storage (cell : HydCell) : HydCell :=
  let zeta_max := cell.zeta_c + cell.Delta_zeta
  { cell with zeta := if cell.h_surface < zeta_max then cell.h_surface else zeta_max }

/-- Step 4 of `richards_lite_step` (lines 483-498): the evaporation sink
    `theta += -(kappa_evap * E_bare_ref) * dt / dz`, floored at `theta_r`. -/
def step4_evaporation_sink (E_bare_ref dt : ℚ) (cell : HydCell) : HydCell :=
  let E_eff := cell.kappa_evap * E_bare_ref
  let dtheta_evap := -E_eff * dt / cell.dz
  let th := cell.theta + dtheta_evap
  { cell with theta := if th < cell.theta_r then cell.theta_r else th }

/-- `richards_lite_step` (hydrology_richards_lite.c lines 420-499).

    The flat C array `cells[(j*nx+i)*nz + k]` is represented as an array of
    columns, `grid[j*nx+i][k]`; the column-major stride makes the two
    layouts correspond index-for-index.  The lookup table stands for
    `g_vG_lut_default` (initialization is assumed, as the early-return
    guard checks).  Steps: 1. depression storage on each surface cell;
    2. the vertical implicit pass per column; 3. the horizontal explicit
    pass over a copy of the surface cells, writing back only `h_surface`
    and `zeta`; 4. the evaporation sink on each surface cell. -/
def richards_lite_step (expf : ℚ → ℚ) (grid : Array (Array HydCell))
    (params : RichardsLiteParams) (nx ny nz : Nat) (dt rainfall : ℚ)
    (lut : VanGenuchtenLUT) : Array (Array HydCell) :=
  let grid1 := grid.map fun col => updAt0 col step1_depression_storage
  let grid2 := grid1.map fun col =>
    solve_vertical_implicit col nz dt rainfall lut params.use_free_drainage
  let surface := grid2.map fun col => col.getD 0 hydDefault
  let surface' := solve_horizontal_explicit expf surface params nx ny dt
  let grid3 := Array.ofFn (n := grid2.size) fun ci =>
    updAt0 (grid2.getD ci #[]) fun cell =>
      { cell with h_surface := (surface'.getD ci hydDefault).h_surface,
                  zeta := (surface'.getD ci hydDefault).zeta }
  let grid4 := grid3.map fun col =>
    updAt0 col (step4_evaporation_sink params.E_bare_ref dt)
  grid4

/-- The fate of one column through `richards_lite_step`, used to reason
    per column: step 1, the vertical pass, the surface write-back (with
    whatever `h_surface`/`zeta` the horizontal pass produced), step 4. -/
def column_pipeline (colIn : Array HydCell) (nz : Nat) (dt rainfall E hs zt : ℚ)
    (lut : VanGenuchtenLUT) (fd : Bool) : Array HydCell :=
  updAt0
    (updAt0 (solve_vertical_implicit (updAt0 colIn step1_depression_storage)
        nz dt rainfall lut fd)
      (fun cell => { cell with h_surface := hs, zeta := zt }))
    (step4_evaporation_sink E dt)

/-- `richards_lite_runoff_mechanism` (hydrology_richards_lite.c lines
    574-597); the lookup table stands for `g_vG_lut_default`. -/
def richards_lite_runoff_mechanism (cell : HydCell) (rainfall : ℚ)
    (lut : VanGenuchtenLUT) : Int :=
  if cell.h_surface < 1 / 10 ^ 6 then 0
  else if cell.theta ≥ cell.theta_s * (99 / 100) then 2
  else
    let K_surf := vG_K_lookup cell.theta lut
    if rainfall > K_surf * cell.M_K_zz then 1
    else 0

end NegCore

namespace NegCore

/- ====================================================================
   Concrete inputs for counterexamples and witnesses
   ==================================================================== -/

/-- A well-formed one-entity, zero-scalar-field state (232-byte snapshot). -/
def s0 : SimState :=
  { num_entities := 1, num_scalar_fields := 0, timestamp := 123456,
    poses := List.replicate 192 0, scalar_fields := [] }

/-- A caller buffer of 232 zero bytes. -/
def c1bufA : List Nat := List.replicate 232 0

/-- The same buffer with bytes 20..27 — the reserved hash field — set to 255. -/
def c1bufB : List Nat :=
  List.replicate 20 0 ++ List.replicate 8 255 ++ List.replicate 204 0

/-- A snapshot with valid magic, version and timestamp (99 ms) whose entity
    count (2) does not match `s0`; rejection happens only after the
    timestamp store. -/
def c2buf : List Nat :=
  negStateMagic ++ u32le NEG_STATE_VERSION ++ u64le 99 ++ u64le 0 ++ u32le 4 ++ u32le 2

/-- A lookup table whose `K_s = 0` makes every conductivity lookup return 0,
    so the implicit system reduces to the rainfall source term alone. -/
def c3lut : VanGenuchtenLUT :=
  { alpha := 2, n := 3/2, m := 1/3, theta_s := 1000, theta_r := 500, K_s := 0,
    theta_of_psi := [], K_of_theta := [], C_of_psi := [],
    psi_min := -100000, psi_max := 0, theta_min := 1/100, theta_max := 3/5 }

/-- A single dry layer with a wide clamp range, so repeated Picard sweeps
    keep adding the rainfall source: after i iterations θ = i. -/
def c3cell : HydCell :=
  { hydDefault with theta := 0, theta_r := 0, porosity_eff := 1000,
                    dz := 1, dx := 1, M_K_zz := 1 }

/-- Solver parameters demanding exactly one Picard iteration
    (`picard_max_iter = 1`, `picard_tol = 0`). -/
def c3params : RichardsLiteParams :=
  { K_r := 1, phi_r := 1/2, l_r := 1/200, b_T := 1, E_bare_ref := 0,
    dt_max := 60, CFL_factor := 1/2, picard_tol := 0, picard_max_iter := 1,
    use_free_drainage := false }

/-- Solver parameters that agree with the constants hard-coded in
    `solve_vertical_implicit`. -/
def c3params20 : RichardsLiteParams :=
  { c3params with picard_tol := 1 / 10 ^ 4, picard_max_iter := 20 }

/-- A fine-LoD active cell (`lod_level = 0`), dispatched to RK4. -/
def c6cell : GridCell :=
  { theta := 0, surface_water := 0, SOM := 0, temperature := 0, vegetation := 0,
    momentum_u := 0, momentum_v := 0, vorticity := 0, flags := 1, lod_level := 0 }

/-- A per-cell integrator stand-in that always succeeds and moves θ by 1. -/
def c6step : IntegratorE → GridCell → Int × GridCell :=
  fun _ c => (0, { c with theta := c.theta + 1 })

/-- A moist layer with θ strictly inside `[theta_r, porosity_eff]`. -/
def c7cellW : HydCell :=
  { hydDefault with theta := 1/5, theta_r := 1/10, theta_s := 2/5,
                    porosity_eff := 2/5, kappa_evap := 1/2, dz := 1/10,
                    dx := 1, M_K_zz := 1 }

/-- A 1×1×1 grid holding `c7cellW`. -/
def c7gridW : Array (Array HydCell) := #[#[c7cellW]]

/-- Physically plausible step parameters with a nonnegative evaporation rate. -/
def c7paramsW : RichardsLiteParams :=
  { K_r := 1/1000, phi_r := 1/2, l_r := 1/200, b_T := 1, E_bare_ref := 1/1000,
    dt_max := 60, CFL_factor := 1/2, picard_tol := 1 / 10 ^ 4,
    picard_max_iter := 20, use_free_drainage := false }

/-- A lookup table with a small saturated conductivity `K_s = 10⁻⁶ m/s`. -/
def c7lutW : VanGenuchtenLUT :=
  { alpha := 2, n := 3/2, m := 1/3, theta_s := 2/5, theta_r := 1/10,
    K_s := 1/10^6,
    theta_of_psi := [], K_of_theta := [], C_of_psi := [],
    psi_min := -100000, psi_max := 0, theta_min := 1/100, theta_max := 3/5 }

/-- A dry surface cell: θ = 0.06 barely above θ_r = 0.05, no ponded water
    (`h_surface = 0`). -/
def c8cell : HydCell :=
  { hydDefault with theta := 6/100, h_surface := 0, theta_s := 2/5,
                    theta_r := 5/100, M_K_zz := 1, dz := 1/10 }

/-- A lookup table whose `theta_r` entry (500) exceeds any physical θ, so the
    lookup takes its residual branch and returns `K_s · 10⁻¹²` — a tiny
    infiltration capacity, as a dry soil has. -/
def c8lut : VanGenuchtenLUT :=
  { alpha := 2, n := 3/2, m := 1/3, theta_s := 2/5, theta_r := 500,
    K_s := 5 / 10 ^ 6,
    theta_of_psi := [], K_of_theta := [], C_of_psi := [],
    psi_min := -100000, psi_max := 0, theta_min := 1/100, theta_max := 3/5 }

/-- A one-entity, one-scalar-field state with sub-millisecond timestamp
    residue (1234567 µs) and distinctive payload bytes. -/
def s10a : SimState :=
  { num_entities := 1, num_scalar_fields := 1, timestamp := 1234567,
    poses := List.replicate 192 7, scalar_fields := [9, 8, 7, 6] }

/-- A state with the same counts as `s10a` but different payload and time. -/
def s10b : SimState :=
  { num_entities := 1, num_scalar_fields := 1, timestamp := 55,
    poses := List.replicate 192 1, scalar_fields := [0, 0, 0, 0] }

/-- A zeroed caller buffer of exactly the snapshot size of `s10a`. -/
def c10prior : List Nat := List.replicate 236 0

end NegCore

namespace NegCore

/- ====================================================================
   Helper lemmas: serialization
   ==================================================================== -/

theorem take_magic (r : List Nat) : (negStateMagic ++ r).take 8 = negStateMagic := rfl

theorem drop_magic (r : List Nat) : (negStateMagic ++ r).drop 8 = r := rfl

theorem drop_u32 (n : Nat) (r : List Nat) : (u32le n ++ r).drop 4 = r := rfl

theorem drop_u64 (n : Nat) (r : List Nat) : (u64le n ++ r).drop 8 = r := rfl

theorem length_u32le (n : Nat) : (u32le n).length = 4 := rfl

theorem length_u64le (n : Nat) : (u64le n).length = 8 := rfl

theorem length_magic : negStateMagic.length = 8 := rfl

theorem readU32_u32le (n : Nat) (r : List Nat) (h : n < 2 ^ 32) :
    readU32 (u32le n ++ r) = n := by
  simp [u32le, readU32]; omega

theorem readU64_u64le (n : Nat) (r : List Nat) (h : n < 2 ^ 64) :
    readU64 (u64le n ++ r) = n := by
  simp [u64le, readU64]; omega

/-- A well-formed snapshot whose counts match the target state is accepted,
    and the parse copies the timestamp (scaled back to µs), poses and
    scalar fields. -/
theorem stateResetFromBinary_success (s : SimState) (t hh d : Nat) (P S : List Nat)
    (hP : P.length = s.num_entities * poseSize) (hS : S.length = s.num_scalar_fields * 4)
    (he32 : s.num_entities < 2 ^ 32) (hf32 : s.num_scalar_fields < 2 ^ 32)
    (ht : t < 2 ^ 64) (hd : d ≤ 4 + P.length + 4 + S.length) (hd32 : d < 2 ^ 32) :
    stateResetFromBinary s
      (negStateMagic ++ u32le NEG_STATE_VERSION ++ u64le t ++ u64le hh ++ u32le d ++
        (u32le s.num_entities ++ P ++ u32le s.num_scalar_fields ++ S)) =
      (true, { s with timestamp := t * 1000 % 2 ^ 64, poses := P, scalar_fields := S }) := by
  have hSt : S.take (s.num_scalar_fields * 4) = S := by
    rw [← hS]; exact List.take_length S
  unfold stateResetFromBinary
  simp only [List.append_assoc, take_magic, drop_magic, drop_u32, drop_u64,
    readU32_u32le NEG_STATE_VERSION _ (by decide),
    readU32_u32le s.num_entities _ he32,
    readU32_u32le s.num_scalar_fields _ hf32,
    readU32_u32le d _ hd32,
    readU64_u64le t _ ht,
    List.length_append, length_u32le, length_u64le, length_magic, ne_eq,
    List.take_left' hP, List.drop_left' hP, hSt]
  simp only [← hP, ← hS]
  repeat' split
  all_goals first
    | rfl
    | omega
    | (simp_all; linarith)

/- ====================================================================
   Claim C1
   ==================================================================== -/

set_option maxRecDepth 100000 in
/-- C1: refuted (code bug).  The claim says the emitted snapshot, hash field
    included, is a function of the simulation state alone.  In the source,
    `state_to_binary` never writes a placeholder into the 8-byte hash field —
    the pointer is merely advanced past it — and the FNV-1a hash is then
    taken over the whole buffer including those stale bytes.  Serializing
    the same state `s0` into two buffers that differ only in the prior
    contents of the hash field (bytes 20..27) produces snapshots with
    different hash fields, while every byte outside the hash field agrees. -/
theorem c1_hash_field_depends_on_prior_buffer :
    ((stateToBinary s0 c1bufA).drop 20).take 8 ≠
        ((stateToBinary s0 c1bufB).drop 20).take 8 ∧
    (stateToBinary s0 c1bufA).take 20 = (stateToBinary s0 c1bufB).take 20 ∧
    (stateToBinary s0 c1bufA).drop 28 = (stateToBinary s0 c1bufB).drop 28 := by
  refine ⟨by decide, by decide, by decide⟩

/- ====================================================================
   Claim C2
   ==================================================================== -/

set_option maxRecDepth 100000 in
/-- C2: counterexample.  `c2buf` has valid magic, version and timestamp but
    an entity count (2) that mismatches `s0`'s (1), so the call returns
    false — yet the state's timestamp has been overwritten with the
    snapshot's 99 ms (stored as 99000 µs), because the source writes the
    timestamp as soon as it parses it, before any count validation. -/
theorem c2_reset_failure_mutates_timestamp :
    (stateResetFromBinary s0 c2buf).1 = false ∧
    (stateResetFromBinary s0 c2buf).2.timestamp = 99000 ∧
    s0.timestamp = 123456 := by
  refine ⟨by decide, by decide, by decide⟩

/-- C2: amended.  The rejections that precede the timestamp store — empty or
    short buffer, wrong magic, or wrong version — do leave the state exactly
    as it was; only validation failures after the header (counts, sizes)
    can leave a mutated timestamp behind. -/
theorem c2_early_reject_leaves_state_unchanged (s : SimState) (buf : List Nat)
    (h : buf.length < 20 ∨ buf.take 8 ≠ negStateMagic ∨
         readU32 (buf.drop 8) ≠ NEG_STATE_VERSION) :
    stateResetFromBinary s buf = (false, s) := by
  rcases h with h | h | h
  · by_cases h0 : buf.length = 0
    · rw [stateResetFromBinary, if_pos h0]
    · by_cases h8 : buf.length < 8
      · rw [stateResetFromBinary, if_neg h0, if_pos h8]
      · by_cases hm : buf.take 8 ≠ negStateMagic
        · rw [stateResetFromBinary, if_neg h0, if_neg h8, if_pos hm]
        · by_cases h12 : (buf.drop 8).length < 4
          · rw [stateResetFromBinary, if_neg h0, if_neg h8, if_neg hm, if_pos h12]
          · by_cases hv : readU32 (buf.drop 8) ≠ NEG_STATE_VERSION
            · rw [stateResetFromBinary, if_neg h0, if_neg h8, if_neg hm, if_neg h12,
                if_pos hv]
            · rw [stateResetFromBinary, if_neg h0, if_neg h8, if_neg hm, if_neg h12,
                if_neg hv, if_pos (by simp [List.length_drop]; omega)]
  · by_cases h0 : buf.length = 0
    · rw [stateResetFromBinary, if_pos h0]
    · by_cases h8 : buf.length < 8
      · rw [stateResetFromBinary, if_neg h0, if_pos h8]
      · rw [stateResetFromBinary, if_neg h0, if_neg h8, if_pos h]
  · by_cases h0 : buf.length = 0
    · rw [stateResetFromBinary, if_pos h0]
    · by_cases h8 : buf.length < 8
      · rw [stateResetFromBinary, if_neg h0, if_pos h8]
      · by_cases hm : buf.take 8 ≠ negStateMagic
        · rw [stateResetFromBinary, if_neg h0, if_neg h8, if_pos hm]
        · by_cases h12 : (buf.drop 8).length < 4
          · rw [stateResetFromBinary, if_neg h0, if_neg h8, if_neg hm, if_pos h12]
          · rw [stateResetFromBinary, if_neg h0, if_neg h8, if_neg hm, if_neg h12,
              if_pos h]

/-- C2: witness for the amended theorem at a 4-byte buffer. -/
theorem c2_early_reject_witness :
    stateResetFromBinary s0 (List.replicate 4 0) = (false, s0) :=
  c2_early_reject_leaves_state_unchanged s0 (List.replicate 4 0) (Or.inl (by decide))

/- ====================================================================
   Claim C10
   ==================================================================== -/

/-- C10: confirmed.  Round trip: serializing a well-formed state `s` into a
    sufficiently large buffer and resetting any state `s'` with the same
    counts from it succeeds and copies poses and scalar fields byte for
    byte, while the timestamp comes back as ⌊t/1000⌋·1000 — the encoder
    stores milliseconds, so sub-millisecond time is discarded. -/
theorem c10_snapshot_roundtrip (s s' : SimState) (prior : List Nat)
    (hs : s.Wf)
    (hne : s'.num_entities = s.num_entities)
    (hns : s'.num_scalar_fields = s.num_scalar_fields)
    (hsize32 : stateGetBinarySize s < 2 ^ 32)
    (hprior : stateGetBinarySize s ≤ prior.length) :
    stateResetFromBinary s' (stateToBinary s prior) =
      (true, { s' with timestamp := s.timestamp / 1000 * 1000,
                       poses := s.poses, scalar_fields := s.scalar_fields }) := by
  obtain ⟨hP, hS, he32, hf32, ht, -, -⟩ := hs
  rw [stateToBinary, if_neg (by omega)]
  simp only
  have hts : s.timestamp / 1000 % 2 ^ 64 = s.timestamp / 1000 := by
    apply Nat.mod_eq_of_lt
    exact lt_of_le_of_lt (Nat.div_le_self _ _) ht
  rw [hts]
  have hlen : (u32le s.num_entities ++ s.poses ++ u32le s.num_scalar_fields ++
      s.scalar_fields).length = 4 + s.poses.length + 4 + s.scalar_fields.length := by
    simp [u32le]; omega
  rw [hlen]
  rw [← hne, ← hns]
  rw [stateResetFromBinary_success s'
      (s.timestamp / 1000) _ _ s.poses s.scalar_fields
      (by rw [hne]; exact hP) (by rw [hns]; exact hS)
      (by rw [hne]; exact he32) (by rw [hns]; exact hf32)
      (lt_of_le_of_lt (Nat.div_le_self _ _) ht)
      (by omega)
      (by simp only [stateGetBinarySize] at hsize32; omega)]
  have : s.timestamp / 1000 * 1000 % 2 ^ 64 = s.timestamp / 1000 * 1000 := by
    apply Nat.mod_eq_of_lt
    exact lt_of_le_of_lt (Nat.div_mul_le_self _ _) ht
  rw [this]

set_option maxRecDepth 100000 in
/-- C10: witness — the round trip from `s10a` (timestamp 1234567 µs) into
    `s10b` restores the payload and truncates the timestamp to 1234000 µs. -/
theorem c10_snapshot_roundtrip_witness :
    stateResetFromBinary s10b (stateToBinary s10a c10prior) =
      (true, { s10b with timestamp := s10a.timestamp / 1000 * 1000,
                         poses := s10a.poses, scalar_fields := s10a.scalar_fields }) :=
  c10_snapshot_roundtrip s10a s10b c10prior (by decide) rfl rfl (by decide) (by decide)

end NegCore

namespace NegCore

/- ====================================================================
   Claim C9
   ==================================================================== -/

/-- C9: counterexample.  `neg_rng_seed` (src/core/rng.c) stores a nonzero
    seed directly as the generator state — no splitmix64 diffusion step is
    applied, since splitmix64 moves the seed 1 elsewhere. -/
theorem c9_seed_stored_without_diffusion :
    neg_rng_seed 1 = 1 ∧ splitmix64 1 ≠ 1 := by
  refine ⟨by decide, by decide⟩

/-- C9: amended.  Both seeding routines leave a non-zero state and map the
    zero seed to a fixed non-zero default, but they differ on diffusion:
    `neg_rng_seed` stores a nonzero seed as is, while `rng_init`
    (src/rng.c) is the routine that applies the single splitmix64
    diffusion step (with a further fallback should the step yield 0). -/
theorem c9_seeding_behaviour (seed : Nat) :
    neg_rng_seed seed ≠ 0 ∧ rng_init seed ≠ 0 ∧
    (seed = 0 → neg_rng_seed seed = NEG_RNG_DEFAULT_SEED) ∧
    (seed ≠ 0 → neg_rng_seed seed = seed) ∧
    (seed ≠ 0 → splitmix64 seed ≠ 0 → rng_init seed = splitmix64 seed) := by
  refine ⟨?_, ?_, ?_, ?_, ?_⟩
  · unfold neg_rng_seed
    split <;> simp_all [NEG_RNG_DEFAULT_SEED]
  · unfold rng_init
    by_cases h : splitmix64 (if seed = 0 then 0x9E3779B97F4A7C15 else seed) = 0
    · simp [h]
    · simp [h]
  · intro h; simp [neg_rng_seed, h]
  · intro h; simp [neg_rng_seed, h]
  · intro h hz; simp [rng_init, h, hz]

/-- C9: witness for the amended theorem at seeds 5 and 0. -/
theorem c9_seeding_witness :
    neg_rng_seed 5 = 5 ∧ rng_init 5 = splitmix64 5 ∧
    neg_rng_seed 0 = NEG_RNG_DEFAULT_SEED :=
  ⟨(c9_seeding_behaviour 5).2.2.2.1 (by decide),
   (c9_seeding_behaviour 5).2.2.2.2 (by decide) (by decide),
   (c9_seeding_behaviour 0).2.2.1 rfl⟩

/- ====================================================================
   Claim C4
   ==================================================================== -/

/-- C4: counterexample.  At `x = x_min` (which satisfies x ≤ x_min + ε) no
    saturation happens: `dx = ε = 0x40 > 0`, so the potential is the finite
    0x20000000 and the gradient — computed through `FRACUNIT/dx` squared,
    which wraps to 0 in int32 — is 0, not the saturated −0x7FFFFFFF. -/
theorem c4_barrier_not_saturated_at_bound :
    fixed_barrier_potential 0 0 = 0x20000000 ∧
    fixed_barrier_gradient 0 0 = 0 ∧
    (0 : Int) ≤ 0 + BARRIER_EPS ∧
    (0x20000000 : Int) ≠ 0x7FFFFFFF ∧ (0 : Int) ≠ -0x7FFFFFFF := by
  refine ⟨by decide, by decide, by decide, by decide, by decide⟩

/-- C4: amended.  The saturated extremes are returned exactly when the
    computed `dx = (x − x_min) + ε` is non-positive under the saturating
    arithmetic; for in-range operands that is `x ≤ x_min − ε`, the mirror
    of the claimed `x ≤ x_min + ε`. -/
theorem c4_barrier_saturates_below_eps (x x_min : Int)
    (hx : INT32_MIN ≤ x ∧ x ≤ INT32_MAX)
    (hxm : INT32_MIN ≤ x_min ∧ x_min ≤ INT32_MAX)
    (h : x ≤ x_min - BARRIER_EPS) :
    fixed_barrier_potential x x_min = 0x7FFFFFFF ∧
    fixed_barrier_gradient x x_min = -0x7FFFFFFF := by
  unfold BARRIER_EPS at h
  obtain ⟨hx1, hx2⟩ := hx
  obtain ⟨hm1, hm2⟩ := hxm
  simp only [INT32_MIN, INT32_MAX] at hx1 hx2 hm1 hm2
  have hdx : barrier_fixed_add (barrier_fixed_sub x x_min) BARRIER_EPS ≤ 0 := by
    unfold barrier_fixed_add barrier_fixed_sub BARRIER_EPS INT32_MAX INT32_MIN
    split_ifs <;> omega
  constructor
  · simp only [fixed_barrier_potential]
    rw [if_pos hdx]
  · simp only [fixed_barrier_gradient]
    rw [if_pos hdx]

/-- C4: witness for the amended theorem at x = −100000, x_min = 0. -/
theorem c4_barrier_saturation_witness :
    fixed_barrier_potential (-100000) 0 = 0x7FFFFFFF ∧
    fixed_barrier_gradient (-100000) 0 = -0x7FFFFFFF :=
  c4_barrier_saturates_below_eps (-100000) 0 (by decide) (by decide) (by decide)

/- ====================================================================
   Claim C5
   ==================================================================== -/

/-- C5: refuted (code bug).  At x = 81920 (1.25 in Q16.16), inside the LUT
    range [1, 256], the interpolated reciprocal is 57344 (0.875 instead of
    0.8): the product r·x in exact Q16.16 arithmetic is 1.09375, a relative
    error of 9.375·10⁻², far above the claimed 10⁻⁴ bound — the LUT
    linearly interpolates 1/x over unit-wide intervals, which is orders of
    magnitude too coarse near x = 1. -/
theorem c5_reciprocal_error_exceeds_bound :
    fixed_reciprocal 81920 = 57344 ∧
    RECIPROCAL_MIN_VAL ≤ 81920 ∧ (81920 : Int) ≤ RECIPROCAL_MAX_VAL ∧
    (fixed_reciprocal 81920 * 81920 - 2 ^ 32) * 10 ^ 4 > 2 ^ 32 := by
  refine ⟨by decide, by decide, by decide, by decide⟩

/- ====================================================================
   Claim C6
   ==================================================================== -/

/-- C6: confirmed.  When the first attempt of `lod_gated_step_cell` succeeds
    and the error estimate exceeds the selected method's threshold (the
    reflection `should_escalate_on`, 10⁻⁴ for RK4 and 10⁻⁶ for RKMK4), the
    step is retried exactly once with the escalated method applied to the
    saved pre-step cell — the restoration; and when the LoD policy selects
    Clebsch, the first result is kept whatever the error, since Clebsch
    never escalates. -/
theorem c6_escalation_policy (step : IntegratorE → GridCell → Int × GridCell)
    (dt : ℚ) (cell : GridCell)
    (hfirst : (step (select_integrator_for_lod cell) cell).1 = 0) :
    (should_escalate_on (select_integrator_for_lod cell)
        (step (select_integrator_for_lod cell) cell).2 cell dt = true →
      lod_gated_step_cell step dt cell =
        (let retry := step (escalate_integrator (select_integrator_for_lod cell)) cell
         if retry.1 ≠ 0 then (retry.1, retry.2) else (0, retry.2))) ∧
    (select_integrator_for_lod cell = .clebsch_collective →
      lod_gated_step_cell step dt cell =
        (0, (step (select_integrator_for_lod cell) cell).2)) := by
  constructor
  · intro hesc
    unfold lod_gated_step_cell
    simp only [hfirst, hesc]
    simp
  · intro hcl
    rw [hcl] at hfirst
    unfold lod_gated_step_cell
    simp only [hcl, hfirst, should_escalate_on]
    simp

/-- C6: witness at the always-succeeding integrator `c6step` on `c6cell`. -/
theorem c6_escalation_policy_witness :
    (should_escalate_on (select_integrator_for_lod c6cell)
        (c6step (select_integrator_for_lod c6cell) c6cell).2 c6cell 1 = true →
      lod_gated_step_cell c6step 1 c6cell =
        (let retry := c6step (escalate_integrator (select_integrator_for_lod c6cell)) c6cell
         if retry.1 ≠ 0 then (retry.1, retry.2) else (0, retry.2))) ∧
    (select_integrator_for_lod c6cell = .clebsch_collective →
      lod_gated_step_cell c6step 1 c6cell =
        (0, (c6step (select_integrator_for_lod c6cell) c6cell).2)) :=
  c6_escalation_policy c6step 1 c6cell rfl

end NegCore

namespace NegCore

/- ====================================================================
   Helper lemmas: arrays and the Picard loop
   ==================================================================== -/

theorem getD_eq_dif {α : Type} (a : Array α) (n : Nat) (d : α) :
    a.getD n d = if h : n < a.size then a[n] else d := by
  unfold Array.getD; split <;> rfl

theorem getD_map' {α β : Type} (f : α → β) (a : Array α) (i : Nat) (d : α) (d' : β)
    (hi : i < a.size) : (a.map f).getD i d' = f (a.getD i d) := by
  rw [getD_eq_dif, getD_eq_dif, dif_pos hi, dif_pos (by simp [Array.size_map, hi])]
  exact Array.getElem_map f a i _

theorem size_updAt0 (col : Array HydCell) (f : HydCell → HydCell) :
    (updAt0 col f).size = col.size := Array.size_setD _ _ _

theorem getD_updAt0 (col : Array HydCell) (f : HydCell → HydCell) (k : Nat) :
    (updAt0 col f).getD k hydDefault =
      if k = 0 ∧ 0 < col.size then f (col.getD 0 hydDefault)
      else col.getD k hydDefault := by
  unfold updAt0 Array.setD
  split
  · rename_i h0
    rw [getD_eq_dif, getD_eq_dif]
    by_cases hk : k < col.size
    · rw [dif_pos (by simpa using hk), dif_pos hk]
      rw [Array.getElem_set]
      by_cases hk0 : k = 0
      · subst hk0
        simp [h0, getD_eq_dif]
      · simp [hk0, Ne.symm hk0]
    · rw [dif_neg (by simpa using hk), dif_neg hk]
      have : ¬(k = 0 ∧ 0 < col.size) := by
        rintro ⟨rfl, h⟩; exact hk h
      simp [this]
  · rename_i h0
    have : ¬(k = 0 ∧ 0 < col.size) := by
      rintro ⟨rfl, h⟩; exact h0 (by simpa using h)
    simp [this]

theorem clamp_bounds (x mn mx : ℚ) (h : mn ≤ mx) :
    mn ≤ clamp x mn mx ∧ clamp x mn mx ≤ mx := by
  unfold clamp; split_ifs <;> constructor <;> linarith

theorem picardIter_size (col : Array HydCell) (nz : Nat) (dt rainfall : ℚ)
    (lut : VanGenuchtenLUT) (fd : Bool) :
    (picardIter col nz dt rainfall lut fd).1.size = nz := Array.size_ofFn _

theorem ofFn_clamp_getD (col : Array HydCell) (nz : Nat) (tn : Array ℚ) (k : Nat)
    (hk : k < nz) :
    (Array.ofFn (n := nz) fun j =>
        let cell := col.getD (j : Nat) hydDefault
        { cell with theta := clamp (tn.getD (j : Nat) 0) cell.theta_r
                      cell.porosity_eff }).getD k hydDefault =
      { col.getD k hydDefault with
        theta := clamp (tn.getD k 0) (col.getD k hydDefault).theta_r
                   (col.getD k hydDefault).porosity_eff } := by
  rw [getD_eq_dif, dif_pos (by simpa [Array.size_ofFn] using hk), Array.getElem_ofFn]

theorem picardIter_getD (col : Array HydCell) (nz : Nat) (dt rainfall : ℚ)
    (lut : VanGenuchtenLUT) (fd : Bool) (k : Nat) (hk : k < nz) :
    ∃ x : ℚ, (picardIter col nz dt rainfall lut fd).1.getD k hydDefault =
      { col.getD k hydDefault with
        theta := clamp x (col.getD k hydDefault).theta_r
                   (col.getD k hydDefault).porosity_eff } := by
  simp only [picardIter]
  exact ⟨_, ofFn_clamp_getD col nz _ k hk⟩

theorem picardLoop_size (fuel : Nat) (hfuel : 1 ≤ fuel) (tol : ℚ)
    (col : Array HydCell) (nz : Nat) (dt rainfall : ℚ) (lut : VanGenuchtenLUT)
    (fd : Bool) :
    (picardLoop fuel tol col nz dt rainfall lut fd).size = nz := by
  induction fuel generalizing col with
  | zero => omega
  | succ n ih =>
    rcases hr : picardIter col nz dt rainfall lut fd with ⟨col2, mc⟩
    have hsz : col2.size = nz := by
      have := picardIter_size col nz dt rainfall lut fd
      rw [hr] at this; exact this
    unfold picardLoop
    simp only [hr]
    split
    · exact hsz
    · cases n with
      | zero => unfold picardLoop; exact hsz
      | succ m => exact ih (by omega) _

theorem picardLoop_getD (fuel : Nat) (hfuel : 1 ≤ fuel) (tol : ℚ)
    (col : Array HydCell) (nz : Nat) (dt rainfall : ℚ) (lut : VanGenuchtenLUT)
    (fd : Bool) (k : Nat) (hk : k < nz) :
    ∃ x : ℚ, (picardLoop fuel tol col nz dt rainfall lut fd).getD k hydDefault =
      { col.getD k hydDefault with
        theta := clamp x (col.getD k hydDefault).theta_r
                   (col.getD k hydDefault).porosity_eff } := by
  induction fuel generalizing col with
  | zero => omega
  | succ n ih =>
    obtain ⟨y, hy⟩ := picardIter_getD col nz dt rainfall lut fd k hk
    rcases hr : picardIter col nz dt rainfall lut fd with ⟨col2, mc⟩
    rw [hr] at hy
    unfold picardLoop
    simp only [hr]
    split
    · exact ⟨y, hy⟩
    · cases n with
      | zero =>
        unfold picardLoop
        exact ⟨y, hy⟩
      | succ m =>
        obtain ⟨x, hx⟩ := ih (by omega) col2
        refine ⟨x, ?_⟩
        rw [hx, hy]

theorem solve_vertical_implicit_getD (col : Array HydCell) (nz : Nat)
    (dt rainfall : ℚ) (lut : VanGenuchtenLUT) (fd : Bool) (k : Nat) (hk : k < nz) :
    ∃ x : ℚ, (solve_vertical_implicit col nz dt rainfall lut fd).getD k hydDefault =
      { col.getD k hydDefault with
        theta := clamp x (col.getD k hydDefault).theta_r
                   (col.getD k hydDefault).porosity_eff } :=
  picardLoop_getD 20 (by omega) _ col nz dt rainfall lut fd k hk

theorem solve_vertical_implicit_size (col : Array HydCell) (nz : Nat)
    (dt rainfall : ℚ) (lut : VanGenuchtenLUT) (fd : Bool) :
    (solve_vertical_implicit col nz dt rainfall lut fd).size = nz :=
  picardLoop_size 20 (by omega) _ col nz dt rainfall lut fd

theorem richards_step_getD (expf : ℚ → ℚ) (grid : Array (Array HydCell))
    (params : RichardsLiteParams) (nx ny nz : Nat) (dt rainfall : ℚ)
    (lut : VanGenuchtenLUT) (ci : Nat) (hci : ci < grid.size) :
    ∃ hs zt : ℚ,
      (richards_lite_step expf grid params nx ny nz dt rainfall lut).getD ci #[] =
        updAt0
          (updAt0
            (solve_vertical_implicit (updAt0 (grid.getD ci #[]) step1_depression_storage)
              nz dt rainfall lut params.use_free_drainage)
            (fun cell => { cell with h_surface := hs, zeta := zt }))
          (step4_evaporation_sink params.E_bare_ref dt) := by
  simp only [richards_lite_step]
  rw [getD_map' _ _ ci #[] #[] (by simpa [Array.size_ofFn, Array.size_map] using hci)]
  rw [getD_eq_dif, dif_pos (by simpa [Array.size_ofFn, Array.size_map] using hci),
    Array.getElem_ofFn]
  rw [getD_map' _ _ ci #[] #[] (by simpa [Array.size_map] using hci)]
  rw [getD_map' _ _ ci #[] #[] hci]
  exact ⟨_, _, rfl⟩

theorem step4_bounds (E dt : ℚ) (cell : HydCell)
    (h1 : cell.theta_r ≤ cell.porosity_eff) (h2 : cell.theta ≤ cell.porosity_eff)
    (hk : 0 ≤ cell.kappa_evap) (hdz : 0 < cell.dz) (hE : 0 ≤ E) (hdt : 0 ≤ dt) :
    cell.theta_r ≤ (step4_evaporation_sink E dt cell).theta ∧
    (step4_evaporation_sink E dt cell).theta ≤ cell.porosity_eff := by
  unfold step4_evaporation_sink
  simp only
  have hnum : -(cell.kappa_evap * E) * dt ≤ 0 := by
    have : 0 ≤ cell.kappa_evap * E * dt := by positivity
    nlinarith
  have hdth : -(cell.kappa_evap * E) * dt / cell.dz ≤ 0 :=
    div_nonpos_of_nonpos_of_nonneg hnum (le_of_lt hdz)
  split <;> constructor <;> first | rfl | linarith

theorem step1_preserves (c : HydCell) :
    (step1_depression_storage c).theta = c.theta ∧
    (step1_depression_storage c).theta_r = c.theta_r ∧
    (step1_depression_storage c).porosity_eff = c.porosity_eff ∧
    (step1_depression_storage c).kappa_evap = c.kappa_evap ∧
    (step1_depression_storage c).dz = c.dz := by
  unfold step1_depression_storage
  exact ⟨rfl, rfl, rfl, rfl, rfl⟩

theorem c7_column (colIn : Array HydCell) (nz : Nat) (dt rainfall E : ℚ)
    (lut : VanGenuchtenLUT) (fd : Bool) (hs zt : ℚ) (k : Nat)
    (hnz : 0 < nz) (hk : k < nz)
    (hw1 : (colIn.getD k hydDefault).theta_r ≤ (colIn.getD k hydDefault).porosity_eff)
    (hw2 : 0 ≤ (colIn.getD k hydDefault).kappa_evap)
    (hw3 : 0 < (colIn.getD k hydDefault).dz)
    (hE : 0 ≤ E) (hdt : 0 ≤ dt) :
    ((column_pipeline colIn nz dt rainfall E hs zt lut fd).getD k hydDefault).theta_r ≤
      ((column_pipeline colIn nz dt rainfall E hs zt lut fd).getD k hydDefault).theta ∧
    ((column_pipeline colIn nz dt rainfall E hs zt lut fd).getD k hydDefault).theta ≤
      ((column_pipeline colIn nz dt rainfall E hs zt lut fd).getD k hydDefault).porosity_eff := by
  unfold column_pipeline
  have hfr : (((updAt0 colIn step1_depression_storage)).getD k hydDefault).theta_r =
      (colIn.getD k hydDefault).theta_r := by
    rw [getD_updAt0]
    split
    · rename_i hc
      obtain ⟨hk0, -⟩ := hc
      subst hk0
      rfl
    · rfl
  have hfp : (((updAt0 colIn step1_depression_storage)).getD k hydDefault).porosity_eff =
      (colIn.getD k hydDefault).porosity_eff := by
    rw [getD_updAt0]
    split
    · rename_i hc
      obtain ⟨hk0, -⟩ := hc
      subst hk0
      rfl
    · rfl
  have hfk : (((updAt0 colIn step1_depression_storage)).getD k hydDefault).kappa_evap =
      (colIn.getD k hydDefault).kappa_evap := by
    rw [getD_updAt0]
    split
    · rename_i hc
      obtain ⟨hk0, -⟩ := hc
      subst hk0
      rfl
    · rfl
  have hfd : (((updAt0 colIn step1_depression_storage)).getD k hydDefault).dz =
      (colIn.getD k hydDefault).dz := by
    rw [getD_updAt0]
    split
    · rename_i hc
      obtain ⟨hk0, -⟩ := hc
      subst hk0
      rfl
    · rfl
  obtain ⟨x, hx⟩ := solve_vertical_implicit_getD (updAt0 colIn step1_depression_storage)
    nz dt rainfall lut fd k hk
  have hble : ((updAt0 colIn step1_depression_storage).getD k hydDefault).theta_r ≤
      ((updAt0 colIn step1_depression_storage).getD k hydDefault).porosity_eff := by
    rw [hfr, hfp]; exact hw1
  have hclamp := clamp_bounds x
    ((updAt0 colIn step1_depression_storage).getD k hydDefault).theta_r
    ((updAt0 colIn step1_depression_storage).getD k hydDefault).porosity_eff hble
  by_cases hk0 : k = 0
  · subst hk0
    rw [getD_updAt0, if_pos ⟨rfl, by
      rw [size_updAt0, solve_vertical_implicit_size]; exact hnz⟩]
    rw [getD_updAt0, if_pos ⟨rfl, by
      rw [solve_vertical_implicit_size]; exact hnz⟩]
    rw [hx]
    have hb2 : 0 ≤ ((updAt0 colIn step1_depression_storage).getD 0 hydDefault).kappa_evap := by
      rw [hfk]; exact hw2
    have hb3 : 0 < ((updAt0 colIn step1_depression_storage).getD 0 hydDefault).dz := by
      rw [hfd]; exact hw3
    have h4 := step4_bounds E dt
      { (updAt0 colIn step1_depression_storage).getD 0 hydDefault with
        theta := clamp x
          ((updAt0 colIn step1_depression_storage).getD 0 hydDefault).theta_r
          ((updAt0 colIn step1_depression_storage).getD 0 hydDefault).porosity_eff,
        h_surface := hs, zeta := zt }
      hble hclamp.2 hb2 hb3 hE hdt
    exact ⟨h4.1, h4.2⟩
  · rw [getD_updAt0, if_neg (by rintro ⟨h, -⟩; exact hk0 h)]
    rw [getD_updAt0, if_neg (by rintro ⟨h, -⟩; exact hk0 h)]
    rw [hx]
    exact ⟨hclamp.1, hclamp.2⟩

end NegCore

namespace NegCore

/- ====================================================================
   Claim C3
   ==================================================================== -/

/-- C3: counterexample.  With parameters demanding a single Picard iteration
    (`picard_max_iter = 1`), the parameter-driven loop stops at θ = 1 on the
    constructed column, but the source's loop — whose bounds are the local
    constants `max_iter = 20` and `tol = 1e-4f` — runs all 20 sweeps and
    reaches θ = 20: `params->picard_tol` and `params->picard_max_iter` are
    never read. -/
theorem c3_picard_params_ignored :
    ((solve_vertical_implicit_spec c3params #[c3cell] 1 1 1 c3lut false).getD 0
        hydDefault).theta = 1 ∧
    ((solve_vertical_implicit #[c3cell] 1 1 1 c3lut false).getD 0 hydDefault).theta = 20 := by
  constructor <;> with_unfolding_all decide

/-- C3: amended.  The vertical pass iterates until max |Δθ| < 10⁻⁴ or 20
    iterations, both hard-coded; the claim's wording holds exactly when the
    parameters happen to equal those constants. -/
theorem c3_picard_constants_hardcoded (params : RichardsLiteParams)
    (column : Array HydCell) (nz : Nat) (dt rainfall : ℚ) (lut : VanGenuchtenLUT)
    (fd : Bool)
    (htol : params.picard_tol = 1 / 10 ^ 4) (hiter : params.picard_max_iter = 20) :
    solve_vertical_implicit_spec params column nz dt rainfall lut fd =
      solve_vertical_implicit column nz dt rainfall lut fd := by
  unfold solve_vertical_implicit_spec solve_vertical_implicit
  rw [htol, hiter]

/-- C3: witness for the amended theorem at the matching parameters. -/
theorem c3_picard_constants_witness :
    solve_vertical_implicit_spec c3params20 #[c3cell] 1 1 1 c3lut false =
      solve_vertical_implicit #[c3cell] 1 1 1 c3lut false :=
  c3_picard_constants_hardcoded c3params20 #[c3cell] 1 1 1 c3lut false rfl rfl

/- ====================================================================
   Claim C7
   ==================================================================== -/

/-- C7: confirmed.  If every cell of the grid starts with
    θ_r ≤ θ ≤ porosity_eff (and the well-formedness the solver assumes:
    θ_r ≤ porosity_eff, κ_e ≥ 0, dz > 0, E_bare_ref ≥ 0, dt ≥ 0), then
    after `richards_lite_step` every cell still satisfies
    θ_r ≤ θ ≤ porosity_eff: the vertical pass clamps each θ into the range
    and the evaporation sink floors the top layer at θ_r without raising θ. -/
theorem c7_theta_invariant (expf : ℚ → ℚ) (grid : Array (Array HydCell))
    (params : RichardsLiteParams) (nx ny nz : Nat) (dt rainfall : ℚ)
    (lut : VanGenuchtenLUT)
    (hnz : 0 < nz)
    (hinit : ∀ ci, ci < grid.size → ∀ k, k < nz →
      ((grid.getD ci #[]).getD k hydDefault).theta_r ≤
          ((grid.getD ci #[]).getD k hydDefault).theta ∧
        ((grid.getD ci #[]).getD k hydDefault).theta ≤
          ((grid.getD ci #[]).getD k hydDefault).porosity_eff)
    (hwf : ∀ ci, ci < grid.size → ∀ k, k < nz →
      ((grid.getD ci #[]).getD k hydDefault).theta_r ≤
          ((grid.getD ci #[]).getD k hydDefault).porosity_eff ∧
        0 ≤ ((grid.getD ci #[]).getD k hydDefault).kappa_evap ∧
        0 < ((grid.getD ci #[]).getD k hydDefault).dz)
    (hE : 0 ≤ params.E_bare_ref) (hdt : 0 ≤ dt) (ci k : Nat)
    (hci : ci < grid.size) (hk : k < nz) :
    (((richards_lite_step expf grid params nx ny nz dt rainfall lut).getD ci
        #[]).getD k hydDefault).theta_r ≤
      (((richards_lite_step expf grid params nx ny nz dt rainfall lut).getD ci
        #[]).getD k hydDefault).theta ∧
    (((richards_lite_step expf grid params nx ny nz dt rainfall lut).getD ci
        #[]).getD k hydDefault).theta ≤
      (((richards_lite_step expf grid params nx ny nz dt rainfall lut).getD ci
        #[]).getD k hydDefault).porosity_eff := by
  obtain ⟨hw1, hw2, hw3⟩ := hwf ci hci k hk
  obtain ⟨hs, zt, heq⟩ :=
    richards_step_getD expf grid params nx ny nz dt rainfall lut ci hci
  rw [heq]
  exact c7_column (grid.getD ci #[]) nz dt rainfall params.E_bare_ref lut
    params.use_free_drainage hs zt k hnz hk hw1 hw2 hw3 hE hdt

/-- C7: witness on the 1×1×1 grid `c7gridW`. -/
theorem c7_theta_invariant_witness :
    (((richards_lite_step (fun _ => 1) c7gridW c7paramsW 1 1 1 1 0 c7lutW).getD 0
        #[]).getD 0 hydDefault).theta_r ≤
      (((richards_lite_step (fun _ => 1) c7gridW c7paramsW 1 1 1 1 0 c7lutW).getD 0
        #[]).getD 0 hydDefault).theta ∧
    (((richards_lite_step (fun _ => 1) c7gridW c7paramsW 1 1 1 1 0 c7lutW).getD 0
        #[]).getD 0 hydDefault).theta ≤
      (((richards_lite_step (fun _ => 1) c7gridW c7paramsW 1 1 1 1 0 c7lutW).getD 0
        #[]).getD 0 hydDefault).porosity_eff :=
  c7_theta_invariant (fun _ => 1) c7gridW c7paramsW 1 1 1 1 0 c7lutW
    (by decide)
    (by with_unfolding_all decide)
    (by with_unfolding_all decide)
    (by with_unfolding_all decide)
    (by with_unfolding_all decide)
    0 0 (by with_unfolding_all decide) (by decide)

/- ====================================================================
   Claim C8
   ==================================================================== -/

/-- C8: counterexample.  A dry cell (θ barely above residual, infiltration
    capacity ≈ 5·10⁻¹⁸ m/s) under rainfall of 1 m/s — rainfall vastly
    exceeding capacity — is classified 0 (no runoff), not 1 (Hortonian),
    because the classifier first requires ponded surface water
    (`h_surface ≥ 10⁻⁶`), and a dry cell has none. -/
theorem c8_dry_cell_intense_rain_returns_none :
    richards_lite_runoff_mechanism c8cell 1 c8lut = 0 ∧
    (1 : ℚ) > vG_K_lookup c8cell.theta c8lut * c8cell.M_K_zz := by
  constructor <;> with_unfolding_all decide

/-- C8: amended.  The classifier's exact decision: with ponded surface water
    (h_surface ≥ 10⁻⁶) it returns 2 when θ ≥ 0.99·θ_s, else 1 when rainfall
    exceeds K(θ)·M_K_zz, else 0; without ponded water it returns 0
    unconditionally, whatever the rainfall intensity. -/
theorem c8_runoff_mechanism_classification (cell : HydCell) (rainfall : ℚ)
    (lut : VanGenuchtenLUT) :
    (richards_lite_runoff_mechanism cell rainfall lut = 1 ↔
      ¬cell.h_surface < 1 / 10 ^ 6 ∧ ¬cell.theta ≥ cell.theta_s * (99 / 100) ∧
        rainfall > vG_K_lookup cell.theta lut * cell.M_K_zz) ∧
    (richards_lite_runoff_mechanism cell rainfall lut = 2 ↔
      ¬cell.h_surface < 1 / 10 ^ 6 ∧ cell.theta ≥ cell.theta_s * (99 / 100)) ∧
    (richards_lite_runoff_mechanism cell rainfall lut = 0 ↔
      cell.h_surface < 1 / 10 ^ 6 ∨
        (¬cell.theta ≥ cell.theta_s * (99 / 100) ∧
          ¬rainfall > vG_K_lookup cell.theta lut * cell.M_K_zz)) := by
  unfold richards_lite_runoff_mechanism
  split_ifs with h1 h2 h3 <;>
    refine ⟨⟨?_, ?_⟩, ⟨?_, ?_⟩, ⟨?_, ?_⟩⟩ <;> simp_all <;>
      first
        | omega
        | exact fun h => h.elim (fun hh => absurd hh (by linarith)) id

end NegCore
